import Mathlib

/-!
Verification of the visibility / refresh logic of an ISS tracking dashboard.

The embedding models the pure logic of `src/main.py` and
`src/pages/analytics.py`: coordinates, tolerances and instants are embedded
as exact rationals (the Python code computes with binary floats, but every
claim under study is about order comparisons and exact constants, for which
the rational model is the idealised semantics); values that involve `sin`,
`sqrt` or `pi` are embedded as reals.  Fallible code (Python `ValueError`)
is embedded with `Except String`.
-/

deriving instance DecidableEq for Except

/-- Default value of `rel_tol` in Python `math.isclose` (1e-9).  The source
calls `math.isclose(a, b, abs_tol=tolerance)` and never overrides it. -/
def rel_tol_default : ℚ := 1 / 1000000000

/-- C `fabs`, written as an executable conditional on ℚ. -/
def pyAbs (x : ℚ) : ℚ := if x < 0 then -x else x

/-- Embedding of CPython `math.isclose(a, b, rel_tol=rel_tol, abs_tol=abs_tol)`
restricted to finite inputs, following the C implementation: raises
`ValueError` when either tolerance is negative, short-circuits on `a == b`,
otherwise returns
`diff <= fabs(rel_tol * b) or diff <= fabs(rel_tol * a) or diff <= abs_tol`
with `diff = fabs(b - a)` (the infinity checks are vacuous on finite
inputs). -/
def isclose (a b rel_tol abs_tol : ℚ) : Except String Bool :=
  if rel_tol < 0 ∨ abs_tol < 0 then
    Except.error "tolerances must be non-negative"
  else if a = b then
    Except.ok true
  else
    let diff := pyAbs (b - a)
    Except.ok (decide (diff ≤ pyAbs (rel_tol * b)) ||
      decide (diff ≤ pyAbs (rel_tol * a)) || decide (diff ≤ abs_tol))

/-- Embedding of `is_iss_nearby` (src/main.py:120-122):
`math.isclose(iss_lat, user_lat, abs_tol=tolerance) and
 math.isclose(iss_lng, user_lng, abs_tol=tolerance)`,
with Python `and` short-circuiting.  Default tolerance is 5. -/
def is_iss_nearby (iss_lat iss_lng user_lat user_lng : ℚ)
    (tolerance : ℚ := 5) : Except String Bool := do
  let c1 ← isclose iss_lat user_lat rel_tol_default tolerance
  if c1 then
    isclose iss_lng user_lng rel_tol_default tolerance
  else
    pure false

/-- The sunrise/sunset record returned by `get_sunrise_sunset`, two
timezone-aware instants embedded as rationals (seconds on a common line). -/
structure DayWindow where
  sunrise : ℚ
  sunset : ℚ
deriving DecidableEq

/-- Embedding of `is_nighttime` (src/main.py:125-139).  The Python function
reads the clock itself (`datetime.now(...)`); here the current instant `now`
is an explicit parameter.  A falsy `sunrise_sunset_data` is `none`. -/
def is_nighttime (sunrise_sunset_data : Option DayWindow) (now : ℚ) : Bool :=
  match sunrise_sunset_data with
  | none => false
  | some w =>
    if w.sunset > w.sunrise then
      decide (now < w.sunrise) || decide (now > w.sunset)
    else
      decide (now > w.sunset) && decide (now < w.sunrise)

/-- Embedding of `(datetime.now() - st.session_state.last_update).total_seconds()`
(src/main.py:182), in seconds. -/
def time_since_update (now last_update : ℚ) : ℚ := now - last_update

/-- Embedding of the auto-refresh gate
`if auto_refresh and time_since_update >= 60` (src/main.py:186). -/
def auto_refresh_gate (auto_refresh : Bool) (now last_update : ℚ) : Bool :=
  auto_refresh && decide (time_since_update now last_update ≥ 60)

/-- Embedding of the combined visibility signal of `main`
(src/main.py:282-300):
`is_nearby = is_iss_nearby(iss_lat, iss_lng, user_lat, user_lng)` (default
tolerance 5), `is_dark = is_nighttime(sun_data) if sun_data else False`, and
the displayed signal is the conjunction `is_nearby and is_dark`. -/
def is_visible (iss_lat iss_lng user_lat user_lng : ℚ)
    (sun_data : Option DayWindow) (now : ℚ) : Except String Bool := do
  let nearby ← is_iss_nearby iss_lat iss_lng user_lat user_lng
  let dark := match sun_data with
    | some _ => is_nighttime sun_data now
    | none => false
  pure (nearby && dark)

/-- The on-screen "Distance" metric of `main` (src/main.py:234):
`math.sqrt((iss_lat - user_lat)**2 + (iss_lng - user_lng)**2)`. -/
noncomputable def distance (iss_lat iss_lng user_lat user_lng : ℚ) : ℝ :=
  Real.sqrt (((iss_lat - user_lat) ^ 2 + (iss_lng - user_lng) ^ 2 : ℚ) : ℝ)

/-- Python `int()` truncation toward zero on an exact rational. -/
def pyInt (x : ℚ) : ℤ := if 0 ≤ x then ⌊x⌋ else ⌈x⌉

/-- `orbital_period_hours = 1.55` (src/pages/analytics.py:84). -/
def orbital_period_hours : ℚ := 1.55

/-- `points_per_orbit = 50` (src/pages/analytics.py:85). -/
def points_per_orbit : ℚ := 50

/-- `total_points = int((hours_ahead / orbital_period_hours) * points_per_orbit)`
(src/pages/analytics.py:86). -/
def orbital_total_points (hours_ahead : ℚ) : ℤ :=
  pyInt ((hours_ahead / orbital_period_hours) * points_per_orbit)

/-- One point of the predicted orbital path
(src/pages/analytics.py:88-107). -/
structure PathPoint where
  lat : ℝ
  lng : ℚ
  time_hours : ℚ
  timestamp : ℚ

/-- `time_offset = (i / points_per_orbit) * orbital_period_hours`
(src/pages/analytics.py:90). -/
def orbital_time_offset (i : ℕ) : ℚ :=
  ((i : ℚ) / points_per_orbit) * orbital_period_hours

/-- `new_lng = current_lng + (time_offset * 15.5)`, then
`if new_lng > 180: new_lng -= 360` (src/pages/analytics.py:93-95). -/
def orbital_new_lng (current_lng : ℚ) (i : ℕ) : ℚ :=
  if current_lng + orbital_time_offset i * 15.5 > 180 then
    current_lng + orbital_time_offset i * 15.5 - 360
  else
    current_lng + orbital_time_offset i * 15.5

/-- `new_lat = lat_amplitude * np.sin(lat_frequency * time_offset)` with
`lat_amplitude = 51.6` and `lat_frequency = 2 + np.pi / orbital_period_hours`
(src/pages/analytics.py:97-100). -/
noncomputable def orbital_new_lat (i : ℕ) : ℝ :=
  51.6 * Real.sin ((2 + Real.pi / (orbital_period_hours : ℝ)) *
    ((orbital_time_offset i : ℚ) : ℝ))

/-- Loop body of `generate_orbital_path` at index `i`
(src/pages/analytics.py:88-107).  The ambient clock `datetime.now()` is the
explicit parameter `now` (in hours). -/
noncomputable def orbital_point (now current_lng : ℚ) (i : ℕ) : PathPoint :=
  ⟨orbital_new_lat i, orbital_new_lng current_lng i,
    orbital_time_offset i, now + orbital_time_offset i⟩

/-- Embedding of `generate_orbital_path(current_lat, current_lng, hours_ahead)`
(src/pages/analytics.py:78-109).  `current_lat` is accepted and ignored,
exactly as in the source. -/
noncomputable def generate_orbital_path (now current_lat current_lng : ℚ)
    (hours_ahead : ℚ := 2) : List PathPoint :=
  (List.range (orbital_total_points hours_ahead).toNat).map
    (orbital_point now current_lng)

/-- Interface of the `np.random` module as used by
`generate_historical_data`: a global generator state `σ`, reseeded by
`seed`, consumed by `normal(mu, sigma)`, `uniform(lo, hi)` and
`choice` from a fixed 3-element list (returned as the chosen index). -/
structure RandomLib (σ : Type) where
  seed : ℕ → σ
  normal : ℚ → ℚ → σ → ℚ × σ
  uniform : ℚ → ℚ → σ → ℚ × σ
  choice3 : σ → ℕ × σ

/-- One row of the simulated historical DataFrame
(src/pages/analytics.py:123-133).  `crew_activity_level` is the chosen index
into `['Low', 'Medium', 'High']`. -/
structure HistRow where
  timestamp : ℚ
  altitude_km : ℚ
  velocity_kmh : ℚ
  power_generation_kw : ℚ
  solar_panel_efficiency : ℚ
  communication_strength : ℚ
  crew_activity_level : ℕ

/-- `pd.date_range(start=now - timedelta(days=days_back), end=now, freq='H')`
(src/pages/analytics.py:116-120): hourly instants (in hours) from
`now - 24 * days_back` to `now` inclusive. -/
def date_range (now : ℚ) (days_back : ℕ) : List ℚ :=
  (List.range (days_back * 24 + 1)).map
    (fun i => now - (days_back : ℚ) * 24 + (i : ℚ))

/-- The row-building loop of `generate_historical_data`
(src/pages/analytics.py:122-133), threading the global generator state
through the six draws of each row, in source order. -/
def histRows {σ : Type} (lib : RandomLib σ) : List ℚ → σ → List HistRow × σ
  | [], g => ([], g)
  | date :: rest, g =>
    let r1 := lib.normal 0 5 g
    let r2 := lib.normal 0 50 r1.2
    let r3 := lib.normal 0 15 r2.2
    let r4 := lib.normal 0 8 r3.2
    let r5 := lib.uniform 70 100 r4.2
    let r6 := lib.choice3 r5.2
    let tail := histRows lib rest r6.2
    (⟨date, 408 + r1.1, 27580 + r2.1, 90 + r3.1, 85 + r4.1, r5.1, r6.1⟩ :: tail.1,
      tail.2)

/-- Embedding of `generate_historical_data(days_back)`
(src/pages/analytics.py:112-135).  `np.random.seed(42)` replaces the incoming
global generator state `g0` with the state seeded at 42, so `g0` is
discarded; the ambient clock `datetime.now()` is the parameter `now`. -/
def generate_historical_data {σ : Type} (lib : RandomLib σ) (now : ℚ)
    (days_back : ℕ) (g0 : σ) : List HistRow × σ :=
  histRows lib (date_range now days_back) (lib.seed 42)

/-- The simulated (non-timestamp) columns of the historical DataFrame. -/
def simCols (rows : List HistRow) : List (ℚ × ℚ × ℚ × ℚ × ℚ × ℕ) :=
  rows.map (fun r => (r.altitude_km, r.velocity_kmh, r.power_generation_kw,
    r.solar_panel_efficiency, r.communication_strength, r.crew_activity_level))

/-- A concrete instantiation of the `np.random` interface used to exercise
the determinism theorems on explicit inputs: the state is a counter and each
draw returns the counter. -/
def demoLib : RandomLib ℕ where
  seed := fun s => s
  normal := fun _ _ g => ((g : ℚ), g + 1)
  uniform := fun _ _ g => ((g : ℚ), g + 1)
  choice3 := fun g => (g % 3, g + 1)

/-- `pyAbs` agrees with the mathematical absolute value. -/
theorem pyAbs_eq_abs (x : ℚ) : pyAbs x = |x| := by
  unfold pyAbs
  split_ifs with h
  · exact (abs_of_neg h).symm
  · exact (abs_of_nonneg (not_lt.mp h)).symm

/-- With non-negative tolerances, `isclose` returns the textbook formula
`abs(a-b) <= max(rel_tol * max(abs(a), abs(b)), abs_tol)`. -/
theorem isclose_ok (a b rel_tol abs_tol : ℚ) (h1 : 0 ≤ rel_tol)
    (h2 : 0 ≤ abs_tol) :
    isclose a b rel_tol abs_tol =
      Except.ok (decide (|a - b| ≤ max (rel_tol * max |a| |b|) abs_tol)) := by
  unfold isclose
  have hg : ¬(rel_tol < 0 ∨ abs_tol < 0) := by
    rintro (h | h) <;> linarith
  rw [if_neg hg]
  by_cases hab : a = b
  · subst hab
    rw [if_pos rfl]
    refine congrArg Except.ok ?_
    symm
    rw [decide_eq_true_eq]
    simpa using le_max_of_le_right h2
  · rw [if_neg hab]
    refine congrArg Except.ok ?_
    rw [pyAbs_eq_abs, pyAbs_eq_abs, pyAbs_eq_abs]
    simp only [← Bool.decide_or]
    rw [decide_eq_decide]
    rw [abs_mul, abs_mul, abs_of_nonneg h1, abs_sub_comm b a,
      mul_max_of_nonneg _ _ h1, le_max_iff, le_max_iff]
    tauto

/-- With a negative tolerance, `isclose` raises `ValueError`. -/
theorem isclose_err (a b rel_tol abs_tol : ℚ) (h : abs_tol < 0) :
    isclose a b rel_tol abs_tol =
      Except.error "tolerances must be non-negative" := by
  unfold isclose
  rw [if_pos (Or.inr h)]

/-- With a non-negative tolerance, `is_iss_nearby` is the conjunction of the
two per-axis `isclose` tests. -/
theorem is_iss_nearby_ok (a b c d t : ℚ) (ht : 0 ≤ t) :
    is_iss_nearby a b c d t =
      Except.ok ((decide (|a - c| ≤ max (rel_tol_default * max |a| |c|) t)) &&
        (decide (|b - d| ≤ max (rel_tol_default * max |b| |d|) t))) := by
  have h0 : (0:ℚ) ≤ rel_tol_default := by norm_num [rel_tol_default]
  unfold is_iss_nearby
  rw [isclose_ok a c _ _ h0 ht, isclose_ok b d _ _ h0 ht]
  cases hd : decide (|a - c| ≤ max (rel_tol_default * max |a| |c|) t) <;>
    simp [Bind.bind, Except.bind, Pure.pure, Except.pure, hd]

/-- With a negative tolerance, `is_iss_nearby` propagates the `ValueError`. -/
theorem is_iss_nearby_err (a b c d t : ℚ) (ht : t < 0) :
    is_iss_nearby a b c d t =
      Except.error "tolerances must be non-negative" := by
  unfold is_iss_nearby
  rw [isclose_err a c _ _ ht]
  rfl

/-- `isclose` is symmetric in its first two arguments. -/
theorem isclose_symm (a b rel_tol abs_tol : ℚ) :
    isclose a b rel_tol abs_tol = isclose b a rel_tol abs_tol := by
  unfold isclose
  by_cases hg : rel_tol < 0 ∨ abs_tol < 0
  · rw [if_pos hg, if_pos hg]
  · rw [if_neg hg, if_neg hg]
    by_cases hab : a = b
    · rw [if_pos hab, if_pos hab.symm]
    · rw [if_neg hab, if_neg (Ne.symm hab)]
      refine congrArg Except.ok ?_
      simp only [pyAbs_eq_abs, abs_sub_comm b a, ← Bool.decide_or,
        decide_eq_decide]
      tauto

/-- C1 counterexample: the claimed pure absolute-tolerance characterisation
fails, because `math.isclose` keeps its default `rel_tol = 1e-9`.  With
satellite latitude `10^10`, observer latitude `10^10 + 1` and tolerance `0`,
`is_iss_nearby` returns true although the axis difference `1` exceeds the
tolerance `0`. -/
theorem nearby_not_pure_abs_tolerance :
    is_iss_nearby (10 ^ 10) 0 (10 ^ 10 + 1) 0 0 = Except.ok true ∧
    ¬(|(10 ^ 10 : ℚ) - (10 ^ 10 + 1)| ≤ 0 ∧ |(0 : ℚ) - 0| ≤ 0) := by
  constructor
  · norm_num [is_iss_nearby, isclose, rel_tol_default, pyAbs, Bind.bind,
      Except.bind]
  · rintro ⟨h, -⟩
    have h1 : ((10 : ℚ) ^ 10 - (10 ^ 10 + 1)) = -1 := by norm_num
    rw [h1, abs_neg, abs_one] at h
    norm_num at h

/-- C1 (amended): for every finite coordinates and every tolerance `t ≥ 0`,
`is_iss_nearby` returns true iff, on each axis independently,
`|x - y| ≤ max(1e-9 * max(|x|, |y|), t)` — the `math.isclose` closeness with
default relative tolerance, not the pure absolute-tolerance test; the two
concrete examples of the claim hold: with tolerance 5,
`is_nearby((0,0),(5,5))` is true and `is_nearby((0,0),(5.0001,0))` is
false. -/
theorem nearby_isclose_characterization :
    (∀ a b c d t : ℚ, 0 ≤ t →
      (is_iss_nearby a b c d t = Except.ok true ↔
        (|a - c| ≤ max (rel_tol_default * max |a| |c|) t ∧
         |b - d| ≤ max (rel_tol_default * max |b| |d|) t))) ∧
    is_iss_nearby 0 0 5 5 5 = Except.ok true ∧
    is_iss_nearby 0 0 (50001 / 10000) 0 5 = Except.ok false := by
  refine ⟨?_, ?_, ?_⟩
  · intro a b c d t ht
    rw [is_iss_nearby_ok a b c d t ht]
    simp only [Except.ok.injEq, Bool.and_eq_true, decide_eq_true_eq]
  · norm_num [is_iss_nearby, isclose, rel_tol_default, pyAbs, Bind.bind,
      Except.bind]
  · norm_num [is_iss_nearby, isclose, rel_tol_default, pyAbs, Bind.bind,
      Except.bind, Pure.pure, Except.pure]

/-- Witness for `nearby_isclose_characterization` at a concrete input. -/
theorem nearby_isclose_characterization_witness :
    (0 : ℚ) ≤ 5 ∧
    (is_iss_nearby 1 2 3 4 5 = Except.ok true ↔
      (|(1 : ℚ) - 3| ≤ max (rel_tol_default * max |(1 : ℚ)| |(3 : ℚ)|) 5 ∧
       |(2 : ℚ) - 4| ≤ max (rel_tol_default * max |(2 : ℚ)| |(4 : ℚ)|) 5)) :=
  ⟨by norm_num, nearby_isclose_characterization.1 1 2 3 4 5 (by norm_num)⟩

/-- C2: in the normal branch (`sunset > sunrise`) night is
`now < sunrise or now > sunset`; in the inverted branch (`sunset <= sunrise`)
night is `now > sunset and now < sunrise`; and an instant exactly equal to
sunrise or to sunset is never classified as night. -/
theorem nighttime_branches :
    ∀ sunrise sunset now : ℚ,
      (sunset > sunrise →
        (is_nighttime (some ⟨sunrise, sunset⟩) now = true ↔
          (now < sunrise ∨ now > sunset))) ∧
      (sunset ≤ sunrise →
        (is_nighttime (some ⟨sunrise, sunset⟩) now = true ↔
          (now > sunset ∧ now < sunrise))) ∧
      is_nighttime (some ⟨sunrise, sunset⟩) sunrise = false ∧
      is_nighttime (some ⟨sunrise, sunset⟩) sunset = false := by
  intro sunrise sunset now
  refine ⟨?_, ?_, ?_, ?_⟩
  · intro h
    simp only [is_nighttime, if_pos h, Bool.or_eq_true, decide_eq_true_eq]
  · intro h
    simp only [is_nighttime, if_neg (not_lt.mpr h), Bool.and_eq_true,
      decide_eq_true_eq]
  · simp only [is_nighttime]
    split_ifs with h
    · simp only [lt_self_iff_false, decide_False, Bool.false_or,
        decide_eq_false_iff_not]
      exact lt_asymm h
    · simp only [lt_self_iff_false, decide_False, Bool.and_false]
  · simp only [is_nighttime]
    split_ifs with h
    · simp only [lt_self_iff_false, decide_False, Bool.or_false,
        decide_eq_false_iff_not]
      exact lt_asymm h
    · simp only [lt_self_iff_false, decide_False, Bool.false_and]

/-- Witness for `nighttime_branches` at the spec's concrete windows. -/
theorem nighttime_branches_witness :
    ((18 : ℚ) > 6 ∧
      (is_nighttime (some ⟨6, 18⟩) 2 = true ↔ ((2 : ℚ) < 6 ∨ (2 : ℚ) > 18))) ∧
    ((2 : ℚ) ≤ 6 ∧
      (is_nighttime (some ⟨6, 2⟩) 5 = true ↔ ((5 : ℚ) > 2 ∧ (5 : ℚ) < 6))) :=
  ⟨⟨by norm_num, (nighttime_branches 6 18 2).1 (by norm_num)⟩,
   ⟨by norm_num, (nighttime_branches 6 2 5).2.1 (by norm_num)⟩⟩

/-- C3 counterexample: a negative tolerance is not clamped to 0 — it makes
`math.isclose` raise `ValueError`, so `is_iss_nearby` with tolerance `-1`
does not return the tolerance-0 result. -/
theorem nearby_negative_tolerance_raises :
    is_iss_nearby 0 0 0 0 (-1) =
      Except.error "tolerances must be non-negative" ∧
    is_iss_nearby 0 0 0 0 0 = Except.ok true ∧
    is_iss_nearby 0 0 0 0 (-1) ≠ is_iss_nearby 0 0 0 0 0 := by
  refine ⟨?_, ?_, ?_⟩
  · norm_num [is_iss_nearby, isclose, rel_tol_default, pyAbs, Bind.bind,
      Except.bind]
  · norm_num [is_iss_nearby, isclose, rel_tol_default, pyAbs, Bind.bind,
      Except.bind]
  · rw [is_iss_nearby_err 0 0 0 0 (-1) (by norm_num),
      is_iss_nearby_ok 0 0 0 0 0 (by norm_num)]
    simp

/-- C3 (amended): for every finite inputs with tolerance `t ≥ 0`,
`is_iss_nearby` returns a boolean without error; with `t < 0` it raises
`ValueError` (from `math.isclose`) instead of clamping the tolerance. -/
theorem nearby_tolerance_domain :
    (∀ a b c d t : ℚ, 0 ≤ t →
      ∃ v : Bool, is_iss_nearby a b c d t = Except.ok v) ∧
    (∀ a b c d t : ℚ, t < 0 →
      is_iss_nearby a b c d t =
        Except.error "tolerances must be non-negative") := by
  constructor
  · intro a b c d t ht
    exact ⟨_, is_iss_nearby_ok a b c d t ht⟩
  · intro a b c d t ht
    exact is_iss_nearby_err a b c d t ht

/-- Witness for `nearby_tolerance_domain` at concrete tolerances. -/
theorem nearby_tolerance_domain_witness :
    ((0 : ℚ) ≤ 1 ∧ ∃ v : Bool, is_iss_nearby 0 0 0 0 1 = Except.ok v) ∧
    ((-2 : ℚ) < 0 ∧ is_iss_nearby 0 0 0 0 (-2) =
      Except.error "tolerances must be non-negative") :=
  ⟨⟨by norm_num, nearby_tolerance_domain.1 0 0 0 0 1 (by norm_num)⟩,
   ⟨by norm_num, nearby_tolerance_domain.2 0 0 0 0 (-2) (by norm_num)⟩⟩

/-- C4: when the sunrise/sunset data is absent, `is_nighttime` returns false
for every instant, rather than raising an error. -/
theorem nighttime_none_false : ∀ now : ℚ, is_nighttime none now = false :=
  fun _ => rfl

/-- C5: with auto-refresh enabled, the refresh gate fires iff at least 60
seconds have elapsed since the last update; in particular it is false at
`T + 59` and true at `T + 60`. -/
theorem refresh_gate_iff :
    (∀ now last_update : ℚ,
      (auto_refresh_gate true now last_update = true ↔
        time_since_update now last_update ≥ 60)) ∧
    (∀ T : ℚ, auto_refresh_gate true (T + 59) T = false ∧
      auto_refresh_gate true (T + 60) T = true) := by
  constructor
  · intro now last_update
    simp [auto_refresh_gate, time_since_update]
  · intro T
    refine ⟨?_, ?_⟩ <;>
      simp only [auto_refresh_gate, time_since_update, Bool.true_and,
        decide_eq_false_iff_not, decide_eq_true_eq, not_le, ge_iff_le] <;>
      linarith

/-- C6: the combined visibility signal is the pure conjunction of the
proximity test (default tolerance 5) and the night test — true exactly when
both are true, with no other input consulted. -/
theorem visible_is_conjunction :
    ∀ (iss_lat iss_lng user_lat user_lng : ℚ) (sun_data : Option DayWindow)
      (now : ℚ),
      (∃ nearby : Bool,
        is_iss_nearby iss_lat iss_lng user_lat user_lng 5 =
          Except.ok nearby ∧
        is_visible iss_lat iss_lng user_lat user_lng sun_data now =
          Except.ok (nearby && is_nighttime sun_data now)) ∧
      (is_visible iss_lat iss_lng user_lat user_lng sun_data now =
          Except.ok true ↔
        (is_iss_nearby iss_lat iss_lng user_lat user_lng 5 =
          Except.ok true ∧ is_nighttime sun_data now = true)) := by
  intro a b c d sun now
  have hok := is_iss_nearby_ok a b c d 5 (by norm_num)
  have hv : is_visible a b c d sun now =
      Except.ok ((decide (|a - c| ≤ max (rel_tol_default * max |a| |c|) 5) &&
        decide (|b - d| ≤ max (rel_tol_default * max |b| |d|) 5)) &&
        is_nighttime sun now) := by
    unfold is_visible
    rw [hok]
    cases sun <;>
      simp [Bind.bind, Except.bind, Pure.pure, Except.pure, is_nighttime]
  refine ⟨⟨_, hok, hv⟩, ?_⟩
  rw [hv, hok]
  simp only [Except.ok.injEq, Bool.and_eq_true]

/-- C7: the proximity test is symmetric — swapping the satellite and the
observer with the same tolerance yields the same result (errors
included). -/
theorem nearby_symm :
    ∀ a b c d t : ℚ, is_iss_nearby a b c d t = is_iss_nearby c d a b t := by
  intro a b c d t
  unfold is_iss_nearby
  rw [isclose_symm a c, isclose_symm b d]

/-- C8: the on-screen Distance metric is the Euclidean norm over degrees,
and it is inconsistent with the axis-wise tolerance check: a satellite at
`(4, 4)` with the observer at `(0, 0)` and tolerance 5 is "nearby" although
its Euclidean distance `sqrt 32 > 5`. -/
theorem distance_euclidean_inconsistent :
    (∀ a b c d : ℚ,
      distance a b c d = Real.sqrt (((a - c) ^ 2 + (b - d) ^ 2 : ℚ) : ℝ)) ∧
    is_iss_nearby 4 4 0 0 5 = Except.ok true ∧
    (5 : ℝ) < distance 4 4 0 0 := by
  refine ⟨fun a b c d => rfl, ?_, ?_⟩
  · norm_num [is_iss_nearby, isclose, rel_tol_default, pyAbs, Bind.bind,
      Except.bind]
  · unfold distance
    rw [show (((4 : ℚ) - 0) ^ 2 + ((4 : ℚ) - 0) ^ 2 : ℚ) = 32 by norm_num]
    rw [show (((32 : ℚ) : ℝ)) = 32 by norm_num]
    rw [Real.lt_sqrt (by norm_num)]
    norm_num

/-- An amplitude-51.6 sine wave stays within `[-51.6, 51.6]`. -/
theorem amp_sin_bounds (x : ℝ) :
    -51.6 ≤ 51.6 * Real.sin x ∧ 51.6 * Real.sin x ≤ 51.6 := by
  have h1 := Real.neg_one_le_sin x
  have h2 := Real.sin_le_one x
  constructor <;> nlinarith

/-- The simulated time offset is non-negative. -/
theorem orbital_time_offset_nonneg (i : ℕ) : 0 ≤ orbital_time_offset i := by
  unfold orbital_time_offset points_per_orbit orbital_period_hours
  positivity

/-- Up to index 192 the simulated time offset is at most `5.952` hours. -/
theorem orbital_time_offset_le (i : ℕ) (hi : (i : ℚ) ≤ 192) :
    orbital_time_offset i ≤ 5.952 := by
  unfold orbital_time_offset points_per_orbit orbital_period_hours
  rw [div_mul_eq_mul_div, div_le_iff₀ (by norm_num)]
  nlinarith

/-- The latitude of every generated path point is within `[-51.6, 51.6]`. -/
theorem orbital_new_lat_bounds (i : ℕ) :
    -51.6 ≤ orbital_new_lat i ∧ orbital_new_lat i ≤ 51.6 := by
  unfold orbital_new_lat
  exact amp_sin_bounds _

/-- For start longitudes in `[-180, 180]` and indices up to 192, the
generated longitude stays in `[-180, 180]`. -/
theorem orbital_new_lng_bounds (current_lng : ℚ) (i : ℕ)
    (hlo : -180 ≤ current_lng) (hhi : current_lng ≤ 180)
    (hi : (i : ℚ) ≤ 192) :
    -180 ≤ orbital_new_lng current_lng i ∧
      orbital_new_lng current_lng i ≤ 180 := by
  have h0 := orbital_time_offset_nonneg i
  have h1 := orbital_time_offset_le i hi
  unfold orbital_new_lng
  split_ifs with h
  · constructor <;> nlinarith
  · push_neg at h
    constructor <;> nlinarith

/-- For positive prediction horizons the point count is non-negative. -/
theorem orbital_total_points_nonneg (h : ℚ) (h0 : 0 < h) :
    0 ≤ orbital_total_points h := by
  unfold orbital_total_points pyInt
  have harg : 0 ≤ h / orbital_period_hours * points_per_orbit := by
    unfold orbital_period_hours points_per_orbit
    positivity
  rw [if_pos harg]
  exact Int.floor_nonneg.mpr harg

/-- For horizons of at most 6 hours, at most 193 points are generated. -/
theorem orbital_total_points_le (h : ℚ) (h0 : 0 < h) (h6 : h ≤ 6) :
    (orbital_total_points h).toNat ≤ 193 := by
  unfold orbital_total_points pyInt
  have harg : 0 ≤ h / orbital_period_hours * points_per_orbit := by
    unfold orbital_period_hours points_per_orbit
    positivity
  rw [if_pos harg]
  have hlt : h / orbital_period_hours * points_per_orbit < 194 := by
    unfold orbital_period_hours points_per_orbit
    rw [div_mul_eq_mul_div, div_lt_iff₀ (by norm_num)]
    nlinarith
  have hfloor : ⌊h / orbital_period_hours * points_per_orbit⌋ < 194 :=
    Int.floor_lt.mpr (by exact_mod_cast hlt)
  exact Int.toNat_le.mpr (by omega)

/-- The generated path has exactly
`int((hours_ahead / orbital_period_hours) * points_per_orbit)` points. -/
theorem generate_orbital_path_length (now current_lat current_lng h : ℚ)
    (h0 : 0 < h) :
    ((generate_orbital_path now current_lat current_lng h).length : ℤ) =
      pyInt ((h / orbital_period_hours) * points_per_orbit) := by
  unfold generate_orbital_path
  rw [List.length_map, List.length_range]
  exact Int.toNat_of_nonneg (orbital_total_points_nonneg h h0)

/-- C9: for any start latitude, any start longitude in `[-180, 180]` and any
horizon in `(0, 6]` hours, `generate_orbital_path` returns exactly
`int((hours_ahead / 1.55) * 50)` points, each with latitude in
`[-51.6, 51.6]` and longitude in `[-180, 180]`. -/
theorem orbital_path_count_and_bounds :
    ∀ now current_lat current_lng hours_ahead : ℚ,
      -180 ≤ current_lng → current_lng ≤ 180 → 0 < hours_ahead →
      hours_ahead ≤ 6 →
      ((generate_orbital_path now current_lat current_lng
          hours_ahead).length : ℤ) =
        pyInt ((hours_ahead / orbital_period_hours) * points_per_orbit) ∧
      ∀ p ∈ generate_orbital_path now current_lat current_lng hours_ahead,
        (-51.6 ≤ p.lat ∧ p.lat ≤ 51.6) ∧
        (-180 ≤ p.lng ∧ p.lng ≤ 180) := by
  intro now clat clng h hlo hhi h0 h6
  refine ⟨generate_orbital_path_length now clat clng h h0, ?_⟩
  intro p hp
  unfold generate_orbital_path at hp
  rw [List.mem_map] at hp
  obtain ⟨i, hi, rfl⟩ := hp
  rw [List.mem_range] at hi
  have hiq : (i : ℚ) ≤ 192 := by
    have hle := orbital_total_points_le h h0 h6
    have : i ≤ 192 := by omega
    exact_mod_cast this
  exact ⟨orbital_new_lat_bounds i, orbital_new_lng_bounds clng i hlo hhi hiq⟩

/-- Witness for `orbital_path_count_and_bounds` at a concrete input. -/
theorem orbital_path_count_and_bounds_witness :
    (-180 : ℚ) ≤ 0 ∧ (0 : ℚ) ≤ 180 ∧ (0 : ℚ) < 2 ∧ (2 : ℚ) ≤ 6 ∧
    (((generate_orbital_path 0 0 0 2).length : ℤ) =
      pyInt ((2 / orbital_period_hours) * points_per_orbit) ∧
    ∀ p ∈ generate_orbital_path 0 0 0 2,
      (-51.6 ≤ p.lat ∧ p.lat ≤ 51.6) ∧ (-180 ≤ p.lng ∧ p.lng ≤ 180)) :=
  ⟨by norm_num, by norm_num, by norm_num, by norm_num,
   orbital_path_count_and_bounds 0 0 0 2 (by norm_num) (by norm_num)
     (by norm_num) (by norm_num)⟩

/-- The simulated columns of `histRows` depend only on the length of the
date list and the incoming generator state, and so does the final state. -/
theorem simCols_histRows {σ : Type} (lib : RandomLib σ) (d1 : List ℚ) :
    ∀ (d2 : List ℚ) (g : σ), d1.length = d2.length →
      simCols (histRows lib d1 g).1 = simCols (histRows lib d2 g).1 ∧
      (histRows lib d1 g).2 = (histRows lib d2 g).2 := by
  induction d1 with
  | nil =>
    intro d2 g h
    cases d2 with
    | nil => exact ⟨rfl, rfl⟩
    | cons y ys => simp at h
  | cons x xs ih =>
    intro d2 g h
    cases d2 with
    | nil => simp at h
    | cons y ys =>
      have hlen : xs.length = ys.length := by simpa using h
      obtain ⟨h1, h2⟩ := ih ys
        ((lib.choice3 (lib.uniform 70 100 (lib.normal 0 8 (lib.normal 0 15
          (lib.normal 0 50 (lib.normal 0 5 g).2).2).2).2).2).2) hlen
      simp only [histRows, simCols, List.map_cons] at h1 h2 ⊢
      exact ⟨by rw [h1], h2⟩

/-- C10: `generate_historical_data` reseeds the generator with the fixed
seed 42 on every call, so its result is independent of the incoming global
generator state — two calls with the same `days_back` at the same clock
instant return identical data — and the simulated columns depend only on the
number of generated rows, not on the timestamps or any prior state. -/
theorem historical_data_deterministic :
    ∀ (σ : Type) (lib : RandomLib σ) (now : ℚ) (days_back : ℕ) (g0 g1 : σ),
      (generate_historical_data lib now days_back g0).1 =
        (generate_historical_data lib now days_back g1).1 ∧
      ∀ (now2 : ℚ) (days2 : ℕ),
        (date_range now days_back).length = (date_range now2 days2).length →
        simCols (generate_historical_data lib now days_back g0).1 =
          simCols (generate_historical_data lib now2 days2 g1).1 := by
  intro σ lib now days_back g0 g1
  refine ⟨rfl, ?_⟩
  intro now2 days2 hlen
  exact (simCols_histRows lib (date_range now days_back)
    (date_range now2 days2) (lib.seed 42) hlen).1

/-- Witness for `historical_data_deterministic` with a concrete generator,
different incoming states and different clock instants. -/
theorem historical_data_deterministic_witness :
    ((generate_historical_data demoLib 0 1 0).1 =
      (generate_historical_data demoLib 0 1 99).1) ∧
    ((date_range 0 1).length = (date_range 100 1).length ∧
      simCols (generate_historical_data demoLib 0 1 0).1 =
        simCols (generate_historical_data demoLib 100 1 99).1) :=
  ⟨(historical_data_deterministic ℕ demoLib 0 1 0 99).1,
   by simp [date_range],
   (historical_data_deterministic ℕ demoLib 0 1 0 99).2 100 1
     (by simp [date_range])⟩
